import Mathlib

/-!
Verification of the Single-Login authentication core (`src/services/authService.ts`,
TOTP variant, together with the login flow of `src/components/LoginPage.tsx` and the
static IP trust policy inlined in `src/unnamed/part_007`).

The Firestore document for one username is embedded as `Account`; operations are
state-passing functions `Option Account → ... → Option Account × OpResult` following
the source line by line.  JavaScript truthiness on nullable strings is modelled by
`truthyS`; Firestore `arrayUnion` on the `trustedIps` field is modelled explicitly.
Timestamps (`createdAt`, `lastLogin`, `serverTimestamp()`) and the stored `uid`
field are elided: no claim and no control path reads them.
-/

namespace SingleLogin

/-- JavaScript truthiness of a nullable string field: `null`/`undefined` and the
empty string are falsy, every other string is truthy. -/
def truthyS : Option String → Bool
  | none => false
  | some s => s ≠ ""

/-- The static TANet allow-list used by the trust policy
(`src/unnamed/part_007`, `isIpSuspicious`): addresses beginning with
`140.130.` are trusted. -/
def tanetPfx : String := "140.130."

/-- `isIpSuspicious` from `src/unnamed/part_007` (the in-repo definition of the
helper that `authService.ts` imports from `./ipWhitelist`): an unknown address is
deliberately NOT treated as suspicious (fail-open), and any address not starting
with the TANet static allow-list is suspicious. -/
def isIpSuspicious : Option String → Bool
  | none => false
  | some ip => !(ip.startsWith tanetPfx)

/-- The per-username Firestore document of the TOTP variant
(`authService.ts`, `registerUser` write at lines 243-254). -/
structure Account where
  email : Option String
  registrationIp : Option String
  trustedIps : Option (List String)
  totpSecret : Option String
  totpEnabled : Bool
  loggedInDeviceId : Option String
  activeSessionId : Option String
  loggedInIp : Option String
deriving DecidableEq, Repr

/-- `userAccount.trustedIps && userAccount.trustedIps.includes(currentUserIp)`:
the field must be present (a JS array is truthy, even empty; `null` is falsy) and
the current address, when known, must be a member. -/
def trustedIncludes (trustedIps : Option (List String)) (ip : Option String) : Bool :=
  match trustedIps, ip with
  | some l, some a => l.contains a
  | some _, none => false
  | none, _ => false

/-- An authenticated Identity-Provider principal (a Firebase Auth `User`):
its email and whether that email is verified. -/
structure IdPrincipal where
  email : String
  emailVerified : Bool
deriving DecidableEq, Repr

/-- The Identity-Provider collaborator (Firebase Auth): the outcome of
`signInWithEmailAndPassword` for each (email, password) pair, and the ambient
`auth.currentUser`. -/
structure IdP where
  signIn : String → String → Option IdPrincipal
  current : Option IdPrincipal

/-- The discriminated result every client-facing operation returns
(success flag, user-facing message, optional session id and flow flags).
The one-time display of a freshly provisioned secret/URI is elided. -/
structure OpResult where
  success : Bool
  message : String
  sessionId : Option String
  needsTotp : Bool
  emailNotVerified : Bool
deriving DecidableEq, Repr

/-- A plain failure result: no session id, no flags. -/
def failRes (m : String) : OpResult := ⟨false, m, none, false, false⟩

/-- A plain success result without a session id. -/
def okRes (m : String) : OpResult := ⟨true, m, none, false, false⟩

/- The user-facing messages (verbatim from the source, with the interpolated
address rendered by `ipDisplay`). -/

/-- `${currentUserIp || '未知'}` -/
def ipDisplay : Option String → String
  | none => "未知"
  | some ip => ip

def invalidCredMsg : String := "無效的使用者名稱或密碼。"

def missingEmailMsg : String := "帳號資料不完整，缺少 Email 無法登入。"

def emailNotVerifiedMsg : String :=
  "您的 Email 尚未驗證。請先完成 Email 驗證才能設定或使用兩步驟驗證。"

def ipOkMsg : String := "IP 驗證成功，正在建立安全連線..."

def needsTotpMsg (ip : Option String) : String :=
  "偵測到從一個不熟悉的 IP (" ++ ipDisplay ip ++ ") 登入。請輸入您的 6 位數 Authenticator 驗證碼。"

def noTotpRefusalMsg (ip : Option String) : String :=
  "偵測到從不熟悉的 IP (" ++ ipDisplay ip ++
  ") 登入，且您的帳號尚未設定兩步驟驗證。為安全起見，請先從您信任的網路環境登入，或完成兩步驟驗證設定。"

/-- `const ipInfo = userAccount.loggedInIp ? \` (IP: ...)\` : ''` -/
def ipInfo (loggedInIp : Option String) : String :=
  if truthyS loggedInIp then " (IP: " ++ ipDisplay loggedInIp ++ ")" else ""

def alreadyOtherDeviceMsg (loggedInIp : Option String) : String :=
  "此帳號已在另一台裝置" ++ ipInfo loggedInIp ++ "上登入。請先從該裝置登出。"

def alreadySameDeviceMsg : String := "此帳號已在此瀏覽器的另一個分頁中登入。請先登出。"

def loginOkMsg : String := "登入成功！"

def userNotFoundMsg : String := "找不到使用者資料。"

def noUserMsg : String := "找不到使用者。"

def secretGeneratedMsg : String := "金鑰產生成功"

def noSecretMsg : String := "找不到金鑰資料，請返回上一步重試。"

def noAccountOrSecretMsg : String := "找不到帳號或尚未設定兩步驟驗證金鑰。"

def invalidCodeMsg : String := "驗證碼錯誤或已過期，請重試。"

def totpEnabledMsg : String := "兩步驟驗證已成功啟用！"

def regSuccessMsg : String :=
  "註冊成功！請檢查您的 Email 信箱以完成驗證，然後設定兩步驟驗證。"

def usernameEmptyMsg : String := "使用者名稱不能為空。"

def usernameTakenMsg : String := "此使用者名稱已被註冊。"

/-! ## One-Time-Code Engine

Modelled from the spec: the TOTP validate engine (`otpauth` library, configured
by the source with `window: 1`, default `period: 30`, default `digits: 6`) is a
third-party dependency whose source is not under `src/`.  Per spec §4.2 the code
for a time step is a deterministic function of the secret and the step counter;
the HMAC-SHA1 derivation itself is abstracted as an arbitrary per-secret function
`code : Int → Nat` from step counters to 6-digit codes, and `validate` accepts a
submitted code exactly when it matches the code of the current step or one of the
two adjacent steps (window ±1), returning the matching step offset `delta`. -/

/-- The time-step counter: `Math.floor(time / period)` (time in seconds). -/
def totpCounter (time period : Nat) : Int := ((time / period : Nat) : Int)

/-- `totp.validate({token, window})`: scan offsets `-window .. window` and return
the first offset whose code matches the submitted token, else `none`. -/
def totpValidate (code : Int → Nat) (token : Nat) (time period window : Nat) : Option Int :=
  (List.range (2 * window + 1)).findSome? (fun i =>
    let d : Int := (i : Int) - (window : Int)
    if code (totpCounter time period + d) = token then some d else none)

/-- The code an authenticator app displays at time `time` (spec §4.2
`currentCode`). -/
def currentCode (code : Int → Nat) (time period : Nat) : Nat :=
  code (totpCounter time period)

/-! ## The Session/Trust Coordinator operations (TOTP variant)

Each operation takes the stored document (`Option Account`, `none` when the
username has no document), the resolved network address and the other inputs the
source reads, and returns the updated document together with the result the
caller sees.  `codeAt secret` is the code-derivation function for a stored
secret. -/

/-- Outcome of `createUserWithEmailAndPassword` during registration. -/
inductive RegOutcome where
  | ok
  | emailInUse
  | weakPassword
  | otherError
deriving DecidableEq, Repr

/-- The fresh document `registerUser` writes (lines 243-254): `trustedIps`
seeded with the registration address when one was observed, step-up fields
empty and disabled, no active session. -/
def newAccount (email : String) (registrationIp : Option String) : Account :=
  { email := some email
    registrationIp := registrationIp
    trustedIps := some (match registrationIp with | some ip => [ip] | none => [])
    totpSecret := none
    totpEnabled := false
    loggedInDeviceId := none
    activeSessionId := none
    loggedInIp := none }

/-- `registerUser` (TOTP variant, lines 226-267). -/
def registerUser (acct : Option Account) (outcome : RegOutcome)
    (registrationIp : Option String) (username email : String) :
    Option Account × OpResult :=
  if username.trim = "" then (acct, failRes usernameEmptyMsg)
  else
    match acct with
    | some a => (some a, failRes usernameTakenMsg)
    | none =>
      match outcome with
      | .ok => (some (newAccount email registrationIp), okRes regSuccessMsg)
      | .emailInUse => (none, failRes "此 Email 已被註冊。")
      | .weakPassword => (none, failRes "密碼強度不足，請至少設定 6 個字元。")
      | .otherError => (none, failRes "註冊時發生錯誤。")

/-- `loginUser` (TOTP variant, lines 356-421).  Every branch returns without a
store write (the source contains no `updateDoc`/`setDoc` on this path), so the
document is passed through unchanged on each return. -/
def loginUser (acct : Option Account) (idp : IdP) (currentUserIp : Option String)
    (password : String) : Option Account × OpResult :=
  match acct with
  | none => (none, failRes invalidCredMsg)
  | some userAccount =>
    if !truthyS userAccount.email then (some userAccount, failRes missingEmailMsg)
    else
      match idp.signIn (userAccount.email.getD "") password with
      | none => (some userAccount, failRes invalidCredMsg)
      | some user =>
        if !user.emailVerified then
          (some userAccount, ⟨false, emailNotVerifiedMsg, none, false, true⟩)
        else
          let isTANet := !isIpSuspicious currentUserIp
          let isTrusted := trustedIncludes userAccount.trustedIps currentUserIp
          if isTANet || isTrusted then (some userAccount, okRes ipOkMsg)
          else if userAccount.totpEnabled && truthyS userAccount.totpSecret then
            (some userAccount, ⟨false, needsTotpMsg currentUserIp, none, true, false⟩)
          else
            (some userAccount, failRes (noTotpRefusalMsg currentUserIp))

/-- The `trustedIps` update `createSession` performs:
`arrayUnion(currentUserIp)` when the address is known and not already a member
(an absent field becomes a fresh one-element array), otherwise unchanged. -/
def accrete (trustedIps : Option (List String)) (ip : Option String) :
    Option (List String) :=
  match ip with
  | none => trustedIps
  | some a =>
    match trustedIps with
    | none => some [a]
    | some l => if l.contains a then some l else some (l ++ [a])

/-- `createSession` (lines 470-511): reject when both `loggedInDeviceId` and
`activeSessionId` are populated (message differs by whether the requesting
device is the bound one, the refusal is the same); otherwise bind the session
atomically in one `updateDoc` — set the device, the fresh session id and the
current address — and `arrayUnion` the current address into `trustedIps` when it
is known and not already a member. -/
def createSession (acct : Option Account) (currentUserIp : Option String)
    (newSessionId deviceId : String) : Option Account × OpResult :=
  match acct with
  | none => (none, failRes userNotFoundMsg)
  | some userAccount =>
    if truthyS userAccount.loggedInDeviceId && truthyS userAccount.activeSessionId then
      if userAccount.loggedInDeviceId ≠ some deviceId then
        (some userAccount, failRes (alreadyOtherDeviceMsg userAccount.loggedInIp))
      else
        (some userAccount, failRes alreadySameDeviceMsg)
    else
      (some { userAccount with
                loggedInDeviceId := some deviceId
                activeSessionId := some newSessionId
                loggedInIp := currentUserIp
                trustedIps := accrete userAccount.trustedIps currentUserIp },
       ⟨true, loginOkMsg, some newSessionId, false, false⟩)

/-- `generateTotpSecret` (lines 271-313): store the fresh secret with
`totpEnabled: false`. -/
def generateTotpSecret (acct : Option Account) (newSecret : String) :
    Option Account × OpResult :=
  match acct with
  | none => (none, failRes noUserMsg)
  | some a =>
    (some { a with totpSecret := some newSecret, totpEnabled := false },
     okRes secretGeneratedMsg)

/-- `verifyAndEnableTotp` (lines 316-353): missing document or missing secret
fail with the same message; a code that does not validate (window ±1) fails with
`invalidCodeMsg` and changes nothing; a valid code flips `totpEnabled` on. -/
def verifyAndEnableTotp (codeAt : String → Int → Nat) (acct : Option Account)
    (token : Nat) (time : Nat) : Option Account × OpResult :=
  match acct with
  | none => (none, failRes noSecretMsg)
  | some a =>
    if !truthyS a.totpSecret then (some a, failRes noSecretMsg)
    else
      match totpValidate (codeAt (a.totpSecret.getD "")) token time 30 1 with
      | none => (some a, failRes invalidCodeMsg)
      | some _ => (some { a with totpEnabled := true }, okRes totpEnabledMsg)

/-- `verifyTotpAndCreateSession` (lines 424-467): validate the submitted code
against the stored secret (window ±1) and, only on success, fall through to
`createSession`. -/
def verifyTotpAndCreateSession (codeAt : String → Int → Nat) (acct : Option Account)
    (token : Nat) (time : Nat) (currentUserIp : Option String)
    (newSessionId deviceId : String) : Option Account × OpResult :=
  match acct with
  | none => (none, failRes noAccountOrSecretMsg)
  | some a =>
    if !truthyS a.totpSecret then (some a, failRes noAccountOrSecretMsg)
    else
      match totpValidate (codeAt (a.totpSecret.getD "")) token time 30 1 with
      | none => (some a, failRes invalidCodeMsg)
      | some _ => createSession (some a) currentUserIp newSessionId deviceId

/-- `logoutUser` (lines 516-529): with an empty username no document write
happens; otherwise the three `activeSession` fields are cleared in one
`updateDoc` (a failed write is swallowed, so the call always returns normally).
The Identity-Provider sign-out is a separate effect on `IdP.current`, not on the
document. -/
def logoutUser (username : String) (acct : Option Account) : Option Account :=
  if username = "" then acct
  else
    match acct with
    | none => none
    | some a =>
      some { a with loggedInDeviceId := none, activeSessionId := none, loggedInIp := none }

/-- `isSessionStillValid` (lines 532-563), returning the boolean the caller sees
together with the document state after the forced logouts it may perform. -/
def isSessionStillValid (username : String) (acct : Option Account) (idp : IdP)
    (currentUserIp : Option String) (deviceId sessionId : String) :
    Bool × Option Account :=
  match idp.current with
  | none => (false, acct)
  | some cu =>
    if !cu.emailVerified then (false, acct)
    else
      match acct with
      | none => (false, none)
      | some userAccount =>
        if userAccount.email ≠ some cu.email then
          (false, logoutUser username acct)
        else if userAccount.loggedInDeviceId ≠ some deviceId ∨
                userAccount.activeSessionId ≠ some sessionId then
          (false, some userAccount)
        else
          let isTANet := !isIpSuspicious currentUserIp
          let isTrusted := trustedIncludes userAccount.trustedIps currentUserIp
          if !isTANet && !isTrusted then (false, logoutUser username acct)
          else (true, some userAccount)

/-- The password-submit flow of `src/components/LoginPage.tsx` (lines 25-66):
call `loginUser`; only when it reports success, call `createSession` on the
(unchanged) document.  One attempt observes one resolved address. -/
def handlePasswordSubmit (acct : Option Account) (idp : IdP)
    (currentUserIp : Option String) (password deviceId newSessionId : String) :
    Option Account × OpResult :=
  let r := loginUser acct idp currentUserIp password
  if r.2.success then createSession r.1 currentUserIp newSessionId deviceId
  else r

/-! ## The single-file (forceLogin) variant

`authService.ts` lines 39-178: the earlier variant stores the password in the
document itself, gates a novel address by a second confirming click
(`forceLogin`) rather than a one-time code, and its documents carry **no**
`trustedIps` field — the session-binding tail (lines 112-130) writes only the
three `activeSession` fields (and `lastLogin`); no trust accretion exists in
this variant. -/

/-- The per-username document of the single-file variant (`registerUser` write
at lines 56-64). -/
structure AccountV1 where
  password : String
  email : Option String
  registrationIp : Option String
  loggedInDeviceId : Option String
  activeSessionId : Option String
  loggedInIp : Option String
deriving DecidableEq, Repr

/-- The result of the single-file `loginUser` (lines 78-83). -/
structure OpResultV1 where
  success : Bool
  message : String
  sessionId : Option String
  needsVerification : Bool
deriving DecidableEq, Repr

/-- A plain failure result of the single-file variant. -/
def failResV1 (m : String) : OpResultV1 := ⟨false, m, none, false⟩

/-- `const regIpInfo = userAccount.registrationIp ? \`(您註冊時的 IP 來源:
...)\` : ''` (line 103). -/
def regIpInfo (registrationIp : Option String) : String :=
  if truthyS registrationIp then
    "(您註冊時的 IP 來源: " ++ ipDisplay registrationIp ++ ")"
  else ""

/-- The novel-address two-click message of the single-file variant
(line 107). -/
def suspiciousV1Msg (currentUserIp registrationIp : Option String) : String :=
  "偵測到從一個不熟悉的 IP (" ++ ipDisplay currentUserIp ++
  ") 登入。此 IP 未被辨識為臺灣學術網路 (TANet) 的一部分。" ++ regIpInfo registrationIp ++
  " 如果您認得此活動，請再次點擊登入以確認。"

/-- `loginUser` of the single-file variant (lines 73-131): stored-password
check, the novel-address confirmation gate, then the session-binding tail —
reject when both `activeSession` ids are populated (device-dependent message,
identical refusal), else one `updateDoc` writing exactly `loggedInDeviceId`,
`activeSessionId` and `loggedInIp`; nothing else in the document changes. -/
def loginUserV1 (acct : Option AccountV1) (currentUserIp : Option String)
    (password deviceId : String) (forceLogin : Bool) (newSessionId : String) :
    Option AccountV1 × OpResultV1 :=
  match acct with
  | none => (none, failResV1 invalidCredMsg)
  | some userAccount =>
    if userAccount.password ≠ password then
      (some userAccount, failResV1 invalidCredMsg)
    else if isIpSuspicious currentUserIp && !forceLogin then
      (some userAccount,
       ⟨false, suspiciousV1Msg currentUserIp userAccount.registrationIp, none, true⟩)
    else if truthyS userAccount.loggedInDeviceId && truthyS userAccount.activeSessionId then
      if userAccount.loggedInDeviceId ≠ some deviceId then
        (some userAccount, failResV1 (alreadyOtherDeviceMsg userAccount.loggedInIp))
      else
        (some userAccount, failResV1 alreadySameDeviceMsg)
    else
      (some { userAccount with
                loggedInDeviceId := some deviceId
                activeSessionId := some newSessionId
                loggedInIp := currentUserIp },
       ⟨true, loginOkMsg, some newSessionId, false⟩)

/-- `logoutUser` of the single-file variant (lines 134-147): clears the three
`activeSession` fields unless the username is empty; write errors are
swallowed. -/
def logoutUserV1 (username : String) (acct : Option AccountV1) : Option AccountV1 :=
  if username = "" then acct
  else
    match acct with
    | none => none
    | some a =>
      some { a with loggedInDeviceId := none, activeSessionId := none, loggedInIp := none }

/-! ## Client-facing operation alphabet and step function

The spec's client-facing surface (§6): register, login (the full
`handlePasswordSubmit` flow), provision step-up, confirm step-up, verify
step-up and bind, logout, and the periodic validity re-check.  Each constructor
carries the nondeterministic inputs the environment supplies (resolved address,
Identity-Provider outcomes, fresh identifiers, submitted codes, current time). -/
inductive Op where
  | register (outcome : RegOutcome) (ip : Option String) (username email : String)
  | login (idp : IdP) (ip : Option String) (password deviceId newSessionId : String)
  | provision (newSecret : String)
  | confirm (token : Nat) (time : Nat)
  | stepUpBind (token : Nat) (time : Nat) (ip : Option String) (deviceId newSessionId : String)
  | logout (username : String)
  | checkValid (username : String) (idp : IdP) (ip : Option String) (deviceId sessionId : String)

/-- One client-facing operation applied to the stored document. -/
def step (codeAt : String → Int → Nat) (s : Option Account) : Op → Option Account × OpResult
  | .register o ip u e => registerUser s o ip u e
  | .login idp ip pw dev sid => handlePasswordSubmit s idp ip pw dev sid
  | .provision sec => generateTotpSecret s sec
  | .confirm tok t => verifyAndEnableTotp codeAt s tok t
  | .stepUpBind tok t ip dev sid => verifyTotpAndCreateSession codeAt s tok t ip sid dev
  | .logout u => (logoutUser u s, okRes "")
  | .checkValid u idp ip dev sid =>
    let r := isSessionStillValid u s idp ip dev sid
    (r.2, ⟨r.1, "", none, false, false⟩)

/-- Run a sequence of client-facing operations. -/
def runOps (codeAt : String → Int → Nat) (s : Option Account) : List Op → Option Account
  | [] => s
  | op :: rest => runOps codeAt (step codeAt s op).1 rest

/-- The `trustedIps` field of a possibly-missing document. -/
def trustedOf : Option Account → Option (List String)
  | none => none
  | some a => a.trustedIps

/-- The `totpEnabled` flag of a possibly-missing document. -/
def enabledOf : Option Account → Bool
  | none => false
  | some a => a.totpEnabled

/-- The `totpSecret` field of a possibly-missing document. -/
def secretOf : Option Account → Option String
  | none => none
  | some a => a.totpSecret

/-! ## Concrete fixtures used by the witness theorems -/

/-- A freshly registered account: one trusted (TANet) address, step-up not
provisioned, no active session. -/
def acctFresh : Account :=
  { email := some "alice@example.com"
    registrationIp := some "140.130.1.1"
    trustedIps := some ["140.130.1.1"]
    totpSecret := none
    totpEnabled := false
    loggedInDeviceId := none
    activeSessionId := none
    loggedInIp := none }

/-- The same account with an active session bound to device `dev-1`. -/
def acctActive : Account :=
  { acctFresh with
      loggedInDeviceId := some "dev-1"
      activeSessionId := some "sid-1"
      loggedInIp := some "140.130.1.1" }

/-- The same account with step-up provisioned and enabled. -/
def acctTotp : Account :=
  { acctFresh with totpSecret := some "JBSWY3DPEHPK3PXP", totpEnabled := true }

/-- A freshly registered single-file-variant account: no session, registered
from a TANet address. -/
def acctV1Fresh : AccountV1 :=
  { password := "pw"
    email := some "alice@example.com"
    registrationIp := some "140.130.1.1"
    loggedInDeviceId := none
    activeSessionId := none
    loggedInIp := none }

/-- The same single-file-variant account with an active session on `dev-1`. -/
def acctV1Active : AccountV1 :=
  { acctV1Fresh with
      loggedInDeviceId := some "dev-1"
      activeSessionId := some "sid-1"
      loggedInIp := some "140.130.1.1" }

/-- An Identity Provider that rejects every credential. -/
def idpReject : IdP := ⟨fun _ _ => none, none⟩

/-- An Identity Provider that accepts every credential with a verified email. -/
def idpAccept : IdP :=
  ⟨fun e _ => some ⟨e, true⟩, some ⟨"alice@example.com", true⟩⟩

/-- A concrete code-derivation function for witnesses: the step counter itself
(clipped to `Nat`), so adjacent steps have distinct codes. -/
def wcode : Int → Nat := fun d => d.toNat

/-- `wcode` as a per-secret code-derivation family. -/
def wcodeAt : String → Int → Nat := fun _ => wcode

/-- The fresh account after step-up provisioning but before confirmation:
secret stored, `totpEnabled` still false. -/
def acctPend : Account := { acctFresh with totpSecret := some "K" }

/-! ## Helper lemmas -/

/-- `loginUser` passes the stored document through unchanged on every branch
(the source contains no store write on this path). -/
theorem loginUser_fst (s : Option Account) (idp : IdP) (ip : Option String)
    (pw : String) : (loginUser s idp ip pw).1 = s := by
  cases s with
  | none => rfl
  | some a =>
    simp only [loginUser]
    split
    · rfl
    split
    · rfl
    split
    · rfl
    split
    · rfl
    split <;> rfl

/-- The address just accreted is a member of the updated trusted set. -/
theorem trustedIncludes_accrete (tr : Option (List String)) (x : String) :
    trustedIncludes (accrete tr (some x)) (some x) = true := by
  cases tr with
  | none => simp [accrete, trustedIncludes]
  | some l =>
    by_cases h : x ∈ l
    · simp [accrete, trustedIncludes, h]
    · simp [accrete, trustedIncludes, h]

/-- Accreting an address already in the trusted set leaves it unchanged. -/
theorem accrete_of_mem (tr : Option (List String)) (x : String)
    (h : trustedIncludes tr (some x) = true) : accrete tr (some x) = tr := by
  cases tr with
  | none => simp [trustedIncludes] at h
  | some l =>
    simp only [trustedIncludes] at h
    have hx : x ∈ l := by simpa using h
    simp [accrete, hx]

/-- `createSession` either refuses (document unchanged) or binds the session,
in both cases leaving every field outside `activeSession`/`trustedIps`
untouched. -/
theorem createSession_fst (a : Account) (ip : Option String) (sid dev : String) :
    (createSession (some a) ip sid dev).1 = some a ∨
    (createSession (some a) ip sid dev).1 =
      some { a with loggedInDeviceId := some dev
                    activeSessionId := some sid
                    loggedInIp := ip
                    trustedIps := accrete a.trustedIps ip } := by
  simp only [createSession]
  split
  · split <;> simp
  · simp

/-- `createSession` never turns `totpEnabled` on. -/
theorem createSession_enabled (s : Option Account) (ip : Option String)
    (sid dev : String) (a' : Account)
    (h : (createSession s ip sid dev).1 = some a') :
    a'.totpEnabled = true → enabledOf s = true := by
  intro hEn
  cases s with
  | none => simp [createSession] at h
  | some a =>
    rcases createSession_fst a ip sid dev with h1 | h1 <;> rw [h1] at h <;>
      injection h with h <;> subst h <;> simpa [enabledOf] using hEn

/-- `registerUser` never turns `totpEnabled` on. -/
theorem registerUser_enabled (s : Option Account) (o : RegOutcome)
    (ip : Option String) (u e : String) (a' : Account)
    (h : (registerUser s o ip u e).1 = some a') :
    a'.totpEnabled = true → enabledOf s = true := by
  intro hEn
  simp only [registerUser] at h
  split at h
  · have h2 : s = some a' := h
    subst h2
    simpa [enabledOf] using hEn
  · split at h
    · simp_all [enabledOf]
    · split at h
      · have h2 : newAccount e ip = a' := by simpa using h
        subst h2
        simp [newAccount] at hEn
      all_goals simp_all

/-- `logoutUser` never turns `totpEnabled` on. -/
theorem logoutUser_enabled (u : String) (s : Option Account) (a' : Account)
    (h : logoutUser u s = some a') :
    a'.totpEnabled = true → enabledOf s = true := by
  intro hEn
  simp only [logoutUser] at h
  split at h
  · have h2 : s = some a' := h
    subst h2
    simpa [enabledOf] using hEn
  · cases s with
    | none => simp at h
    | some a => injection h with h; rw [← h] at hEn; simpa [enabledOf] using hEn

/-- `loginUser` followed by `createSession` (the LoginPage flow) never turns
`totpEnabled` on. -/
theorem handlePasswordSubmit_enabled (s : Option Account) (idp : IdP)
    (ip : Option String) (pw dev sid : String) (a' : Account)
    (h : (handlePasswordSubmit s idp ip pw dev sid).1 = some a') :
    a'.totpEnabled = true → enabledOf s = true := by
  intro hEn
  simp only [handlePasswordSubmit] at h
  split at h
  · rw [loginUser_fst] at h
    exact createSession_enabled s ip sid dev a' h hEn
  · rw [loginUser_fst] at h
    subst h
    simpa [enabledOf] using hEn

/-- `verifyTotpAndCreateSession` never turns `totpEnabled` on. -/
theorem verifyTotp_enabled (codeAt : String → Int → Nat) (s : Option Account)
    (tok t : Nat) (ip : Option String) (sid dev : String) (a' : Account)
    (h : (verifyTotpAndCreateSession codeAt s tok t ip sid dev).1 = some a') :
    a'.totpEnabled = true → enabledOf s = true := by
  intro hEn
  cases s with
  | none => simp [verifyTotpAndCreateSession] at h
  | some a =>
    simp only [verifyTotpAndCreateSession] at h
    split at h
    · injection h with h; rw [← h] at hEn; simpa [enabledOf] using hEn
    · split at h
      · injection h with h; rw [← h] at hEn; simpa [enabledOf] using hEn
      · exact createSession_enabled (some a) ip sid dev a' h hEn

/-- `isSessionStillValid` never turns `totpEnabled` on. -/
theorem checkValid_enabled (u : String) (s : Option Account) (idp : IdP)
    (ip : Option String) (dev sid : String) (a' : Account)
    (h : (isSessionStillValid u s idp ip dev sid).2 = some a') :
    a'.totpEnabled = true → enabledOf s = true := by
  intro hEn
  simp only [isSessionStillValid] at h
  split at h
  · have h2 : s = some a' := h
    subst h2
    simpa [enabledOf] using hEn
  · split at h
    · have h2 : s = some a' := h
      subst h2
      simpa [enabledOf] using hEn
    · split at h
      · simp at h
      · split at h
        · exact logoutUser_enabled u _ a' h hEn
        · split at h
          · injection h with h; rw [← h] at hEn; simpa [enabledOf] using hEn
          · split at h
            · exact logoutUser_enabled u _ a' h hEn
            · injection h with h; rw [← h] at hEn; simpa [enabledOf] using hEn

/-- `loginUser` never carries a session id in its result (the source's return
type on this path has no `sessionId` field). -/
theorem loginUser_sessionId (s : Option Account) (idp : IdP) (ip : Option String)
    (pw : String) : (loginUser s idp ip pw).2.sessionId = none := by
  cases s with
  | none => rfl
  | some a =>
    simp only [loginUser]
    split
    · rfl
    split
    · rfl
    split
    · rfl
    split
    · rfl
    split <;> rfl

/-- From an address that is statically suspicious and not in the account's
trusted set, `loginUser` never reports success. -/
theorem loginUser_untrusted_fails (s : Option Account) (idp : IdP) (x pw : String)
    (hSusp : isIpSuspicious (some x) = true)
    (hMem : trustedIncludes (trustedOf s) (some x) = false) :
    (loginUser s idp (some x) pw).2.success = false := by
  cases s with
  | none => rfl
  | some a =>
    have hM : trustedIncludes a.trustedIps (some x) = false := by
      simpa [trustedOf] using hMem
    simp only [loginUser]
    split
    · rfl
    split
    · rfl
    split
    · rfl
    split
    · next hcond =>
      exfalso
      rw [hSusp, hM] at hcond
      simp at hcond
    · split <;> rfl

/-- Step-up well-formedness of one account: `totpEnabled` only with a stored
secret. -/
def goodA (a : Account) : Prop := a.totpEnabled = true → truthyS a.totpSecret = true

/-- Step-up well-formedness of the stored document. -/
def goodState (s : Option Account) : Prop := ∀ a, s = some a → goodA a

theorem goodA_newAccount (e : String) (ip : Option String) : goodA (newAccount e ip) := by
  intro h
  simp [newAccount] at h

theorem createSession_good (a : Account) (ip : Option String) (sid dev : String)
    (hg : goodA a) (a' : Account)
    (h : (createSession (some a) ip sid dev).1 = some a') : goodA a' := by
  rcases createSession_fst a ip sid dev with h1 | h1 <;> rw [h1] at h <;>
    injection h with h <;> subst h
  · exact hg
  · intro he
    simpa using hg (by simpa using he)

theorem logoutUser_good (u : String) (s : Option Account) (hg : goodState s)
    (a' : Account) (h : logoutUser u s = some a') : goodA a' := by
  simp only [logoutUser] at h
  split at h
  · exact hg a' h
  · cases s with
    | none => simp at h
    | some a =>
      have h2 : { a with loggedInDeviceId := none, activeSessionId := none,
                         loggedInIp := none } = a' := by simpa using h
      subst h2
      intro he
      simpa using hg a rfl (by simpa using he)

/-- Every client-facing operation preserves step-up well-formedness: a state in
which `totpEnabled` holds without a stored secret is unreachable. -/
theorem step_good (codeAt : String → Int → Nat) (s : Option Account) (op : Op)
    (hg : goodState s) : goodState (step codeAt s op).1 := by
  intro a' h
  cases op with
  | register o ip u e =>
    simp only [step, registerUser] at h
    split at h
    · exact hg a' h
    · split at h
      · exact hg a' h
      · split at h
        · have h2 : newAccount e ip = a' := by simpa using h
          subst h2
          exact goodA_newAccount e ip
        all_goals simp_all
  | login idp ip pw dev sid =>
    simp only [step, handlePasswordSubmit] at h
    split at h
    · rw [loginUser_fst] at h
      cases s with
      | none => simp [createSession] at h
      | some a => exact createSession_good a ip sid dev (hg a rfl) a' h
    · rw [loginUser_fst] at h
      exact hg a' h
  | provision sec =>
    cases s with
    | none => simp [step, generateTotpSecret] at h
    | some a =>
      have h2 : { a with totpSecret := some sec, totpEnabled := false } = a' := by
        simpa [step, generateTotpSecret] using h
      subst h2
      intro he
      simp at he
  | confirm tok t =>
    cases s with
    | none => simp [step, verifyAndEnableTotp] at h
    | some a =>
      simp only [step, verifyAndEnableTotp] at h
      split at h
      · have h2 : a = a' := by simpa using h
        subst h2
        exact hg _ rfl
      · next hsec =>
        split at h
        · have h2 : a = a' := by simpa using h
          subst h2
          exact hg _ rfl
        · have h2 : { a with totpEnabled := true } = a' := by simpa using h
          subst h2
          intro _
          simpa using hsec
  | stepUpBind tok t ip dev sid =>
    cases s with
    | none => simp [step, verifyTotpAndCreateSession] at h
    | some a =>
      simp only [step, verifyTotpAndCreateSession] at h
      split at h
      · have h2 : a = a' := by simpa using h
        subst h2
        exact hg _ rfl
      · split at h
        · have h2 : a = a' := by simpa using h
          subst h2
          exact hg _ rfl
        · exact createSession_good a ip sid dev (hg a rfl) a' h
  | logout u => exact logoutUser_good u s hg a' h
  | checkValid u idp ip dev sid =>
    simp only [step, isSessionStillValid] at h
    split at h
    · exact hg a' h
    · split at h
      · exact hg a' h
      · split at h
        · simp at h
        · split at h
          · exact logoutUser_good u _ hg a' h
          · split at h
            · exact hg a' h
            · split at h
              · exact logoutUser_good u _ hg a' h
              · exact hg a' h

/-- Well-formedness along any operation sequence. -/
theorem runOps_good (codeAt : String → Int → Nat) (s : Option Account)
    (ops : List Op) (hg : goodState s) : goodState (runOps codeAt s ops) := by
  induction ops generalizing s with
  | nil => exact hg
  | cons op rest ih => exact ih (step codeAt s op).1 (step_good codeAt s op hg)

/-! ## Claims -/

/-- Claim C6: a login attempt against a non-existent username and one against an
existing account with an incorrect password return the same failure result with
the same user-facing message, so the response does not reveal whether the
username exists. -/
theorem login_no_user_enumeration (idp : IdP) (ip : Option String) (pw : String)
    (a : Account) (hEmail : truthyS a.email = true)
    (hCred : idp.signIn (a.email.getD "") pw = none) :
    (loginUser none idp ip pw).2 = failRes invalidCredMsg ∧
    (loginUser (some a) idp ip pw).2 = failRes invalidCredMsg := by
  refine ⟨rfl, ?_⟩
  simp [loginUser, hEmail, hCred]

/-- Witness for C6 at a concrete account and an all-rejecting Identity
Provider. -/
theorem login_no_user_enumeration_witness :
    (loginUser none idpReject (some "8.8.8.8") "wrongpw").2 = failRes invalidCredMsg ∧
    (loginUser (some acctFresh) idpReject (some "8.8.8.8") "wrongpw").2 =
      failRes invalidCredMsg :=
  login_no_user_enumeration idpReject (some "8.8.8.8") "wrongpw" acctFresh
    (by decide) rfl

/-- Claim C8: with a non-empty username, logout clears all three
`activeSession` fields of any account unconditionally and returns normally, and
logout is idempotent: a second call leaves the document exactly as the first
left it. -/
theorem logout_idempotent (username : String) (h : username ≠ "") (a : Account) :
    logoutUser username (some a) =
      some { a with loggedInDeviceId := none, activeSessionId := none, loggedInIp := none } ∧
    (∀ s : Option Account,
       logoutUser username (logoutUser username s) = logoutUser username s) := by
  constructor
  · simp [logoutUser, h]
  · intro s
    cases s with
    | none => simp [logoutUser, h]
    | some b => simp [logoutUser, h]

/-- Witness for C8: logging out the active account clears the session, and the
second logout is a no-op. -/
theorem logout_idempotent_witness :
    logoutUser "alice" (some acctActive) = some acctFresh ∧
    logoutUser "alice" (logoutUser "alice" (some acctActive)) =
      logoutUser "alice" (some acctActive) :=
  ⟨(logout_idempotent "alice" (by decide) acctActive).1,
   (logout_idempotent "alice" (by decide) acctActive).2 (some acctActive)⟩

/-- Counterexample for C2 as frozen: the single-file variant's session-binding
tail appends nothing to any trusted-address set.  Concretely, after a confirmed
(`forceLogin`) login from the never-seen address `8.8.8.8` binds a session —
writing exactly the three `activeSession` fields — and the user logs out, a
fresh login from the very same address without the confirmation click is again
blocked as unfamiliar (`needsVerification`): the address was not retained, so
the claim's accretion conjunct is false of this operation. -/
theorem session_binding_v1_counterexample :
    (loginUserV1 (some acctV1Fresh) (some "8.8.8.8") "pw" "dev-1" true "sid-1").2.success = true ∧
    (loginUserV1 (some acctV1Fresh) (some "8.8.8.8") "pw" "dev-1" true "sid-1").1 =
      some { acctV1Fresh with
               loggedInDeviceId := some "dev-1"
               activeSessionId := some "sid-1"
               loggedInIp := some "8.8.8.8" } ∧
    (loginUserV1
        (logoutUserV1 "alice"
          (loginUserV1 (some acctV1Fresh) (some "8.8.8.8") "pw" "dev-1" true "sid-1").1)
        (some "8.8.8.8") "pw" "dev-1" false "sid-2").2 =
      ⟨false, suspiciousV1Msg (some "8.8.8.8") (some "140.130.1.1"), none, true⟩ := by
  refine ⟨rfl, rfl, ?_⟩
  decide

/-- Claim C2 (amended): in both variants, session binding rejects whenever both
`activeSession` ids are populated — whatever the requesting device, the refusal
is the same failure outcome with no state change and no session id — and
otherwise atomically sets all three `activeSession` fields (the device, the
fresh session id, the current address) and returns the new session id; in the
TOTP variant's `createSession` the current address is additionally accreted
into `trustedIps` exactly when it is known and not already a member, while the
single-file `loginUser` binding tail (whose documents have no `trustedIps`
field) performs no trust accretion and changes nothing else in the document. -/
theorem session_binding_both_variants (a : Account) (b : AccountV1)
    (ip : Option String) (sid dev pw : String) (force : Bool)
    (hpw : b.password = pw)
    (hgate : (isIpSuspicious ip && !force) = false) :
    ((truthyS a.loggedInDeviceId && truthyS a.activeSessionId) = true →
      (createSession (some a) ip sid dev).1 = some a ∧
      (createSession (some a) ip sid dev).2.success = false ∧
      (createSession (some a) ip sid dev).2.sessionId = none) ∧
    ((truthyS a.loggedInDeviceId && truthyS a.activeSessionId) = false →
      createSession (some a) ip sid dev =
        (some { a with loggedInDeviceId := some dev
                       activeSessionId := some sid
                       loggedInIp := ip
                       trustedIps := accrete a.trustedIps ip },
         ⟨true, loginOkMsg, some sid, false, false⟩)) ∧
    (∀ x l, ip = some x → a.trustedIps = some l →
       accrete a.trustedIps ip = some (if x ∈ l then l else l ++ [x])) ∧
    ((truthyS b.loggedInDeviceId && truthyS b.activeSessionId) = true →
      (loginUserV1 (some b) ip pw dev force sid).1 = some b ∧
      (loginUserV1 (some b) ip pw dev force sid).2.success = false ∧
      (loginUserV1 (some b) ip pw dev force sid).2.sessionId = none) ∧
    ((truthyS b.loggedInDeviceId && truthyS b.activeSessionId) = false →
      loginUserV1 (some b) ip pw dev force sid =
        (some { b with loggedInDeviceId := some dev
                       activeSessionId := some sid
                       loggedInIp := ip },
         ⟨true, loginOkMsg, some sid, false⟩)) := by
  refine ⟨?_, ?_, ?_, ?_, ?_⟩
  · intro h
    simp only [createSession, h, if_true]
    split <;> simp [failRes]
  · intro h
    simp [createSession, h]
  · intro x l hx hl
    subst hx
    rw [hl]
    by_cases hm : x ∈ l <;> simp [accrete, hm]
  · intro h
    simp only [loginUserV1, hpw, ne_eq, not_true_eq_false, if_false, hgate,
      Bool.false_eq_true, h, if_true]
    split <;> simp [failResV1]
  · intro h
    simp [loginUserV1, hpw, hgate, h]

/-- Witness for C2: in each variant the active account refuses a second binding
(for a foreign device) with no session id, and the fresh account binds
atomically — in the TOTP variant with accretion of the new address, in the
single-file variant with nothing but the three session fields changed. -/
theorem session_binding_both_variants_witness :
    (createSession (some acctActive) (some "8.8.8.8") "sid-2" "dev-2").1 = some acctActive ∧
    (createSession (some acctActive) (some "8.8.8.8") "sid-2" "dev-2").2.success = false ∧
    createSession (some acctFresh) (some "8.8.8.8") "sid-2" "dev-2" =
      (some { acctFresh with
                loggedInDeviceId := some "dev-2"
                activeSessionId := some "sid-2"
                loggedInIp := some "8.8.8.8"
                trustedIps := accrete acctFresh.trustedIps (some "8.8.8.8") },
       ⟨true, loginOkMsg, some "sid-2", false, false⟩) ∧
    (loginUserV1 (some acctV1Active) (some "8.8.8.8") "pw" "dev-2" true "sid-2").1 =
      some acctV1Active ∧
    (loginUserV1 (some acctV1Active) (some "8.8.8.8") "pw" "dev-2" true "sid-2").2.success = false ∧
    loginUserV1 (some acctV1Fresh) (some "8.8.8.8") "pw" "dev-2" true "sid-2" =
      (some { acctV1Fresh with
                loggedInDeviceId := some "dev-2"
                activeSessionId := some "sid-2"
                loggedInIp := some "8.8.8.8" },
       ⟨true, loginOkMsg, some "sid-2", false⟩) :=
  ⟨((session_binding_both_variants acctActive acctV1Fresh (some "8.8.8.8") "sid-2"
      "dev-2" "pw" true rfl (by decide)).1 (by decide)).1,
   ((session_binding_both_variants acctActive acctV1Fresh (some "8.8.8.8") "sid-2"
      "dev-2" "pw" true rfl (by decide)).1 (by decide)).2.1,
   (session_binding_both_variants acctFresh acctV1Fresh (some "8.8.8.8") "sid-2"
      "dev-2" "pw" true rfl (by decide)).2.1 (by decide),
   ((session_binding_both_variants acctFresh acctV1Active (some "8.8.8.8") "sid-2"
      "dev-2" "pw" true rfl (by decide)).2.2.2.1 (by decide)).1,
   ((session_binding_both_variants acctFresh acctV1Active (some "8.8.8.8") "sid-2"
      "dev-2" "pw" true rfl (by decide)).2.2.2.1 (by decide)).2.1,
   (session_binding_both_variants acctFresh acctV1Fresh (some "8.8.8.8") "sid-2"
      "dev-2" "pw" true rfl (by decide)).2.2.2.2 (by decide)⟩

/-- Claim C9: when `activeSession` is empty, a direct call to the exported
`createSession` binds a session and accretes the caller's address into
`trustedIps` even when that address is statically suspicious, not a member of
`trustedIps`, and step-up was never enabled — emptiness is `createSession`'s
only gate. -/
theorem createSession_no_trust_gate (a : Account) (x sid dev : String)
    (hEmpty : (truthyS a.loggedInDeviceId && truthyS a.activeSessionId) = false)
    (hSusp : isIpSuspicious (some x) = true)
    (hMem : trustedIncludes a.trustedIps (some x) = false)
    (hNoStepUp : a.totpEnabled = false) :
    (createSession (some a) (some x) sid dev).2.success = true ∧
    (createSession (some a) (some x) sid dev).2.sessionId = some sid ∧
    ∃ a', (createSession (some a) (some x) sid dev).1 = some a' ∧
      a'.loggedInDeviceId = some dev ∧ a'.activeSessionId = some sid ∧
      trustedIncludes a'.trustedIps (some x) = true := by
  refine ⟨by simp [createSession, hEmpty], by simp [createSession, hEmpty], ?_⟩
  refine ⟨{ a with
              loggedInDeviceId := some dev
              activeSessionId := some sid
              loggedInIp := some x
              trustedIps := accrete a.trustedIps (some x) },
          by simp [createSession, hEmpty], rfl, rfl,
          trustedIncludes_accrete a.trustedIps x⟩

/-- Witness for C9: a fresh account with no step-up accepts a direct binding
from a non-TANet, never-seen address. -/
theorem createSession_no_trust_gate_witness :
    (createSession (some acctFresh) (some "8.8.4.4") "sid-9" "dev-9").2.success = true ∧
    (createSession (some acctFresh) (some "8.8.4.4") "sid-9" "dev-9").2.sessionId = some "sid-9" ∧
    ∃ a', (createSession (some acctFresh) (some "8.8.4.4") "sid-9" "dev-9").1 = some a' ∧
      a'.loggedInDeviceId = some "dev-9" ∧ a'.activeSessionId = some "sid-9" ∧
      trustedIncludes a'.trustedIps (some "8.8.4.4") = true :=
  createSession_no_trust_gate acctFresh "8.8.4.4" "sid-9" "dev-9"
    (by decide) (by decide) (by decide) (by decide)

/-- Claim C3: `isSessionStillValid` returns `true` exactly when every check
passes — the Identity Provider still knows a verified caller, the stored email
matches the principal's, the supplied device and session ids match the bound
`activeSession`, and the current address is statically trusted or a member of
`trustedIps`; equivalently, any single failing check alone yields `false`. -/
theorem isSessionStillValid_fails_closed (u : String) (s : Option Account)
    (idp : IdP) (ip : Option String) (dev sid : String) :
    (isSessionStillValid u s idp ip dev sid).1 = true ↔
      ∃ cu, idp.current = some cu ∧ cu.emailVerified = true ∧
        ∃ a, s = some a ∧ a.email = some cu.email ∧
          a.loggedInDeviceId = some dev ∧ a.activeSessionId = some sid ∧
          (isIpSuspicious ip = false ∨ trustedIncludes a.trustedIps ip = true) := by
  cases hc : idp.current with
  | none => simp [isSessionStillValid, hc]
  | some cu =>
    cases hv : cu.emailVerified with
    | false => simp [isSessionStillValid, hc, hv]
    | true =>
      cases s with
      | none => simp [isSessionStillValid, hc, hv]
      | some a =>
        by_cases he : a.email = some cu.email
        · by_cases hd : a.loggedInDeviceId = some dev
          · by_cases hs2 : a.activeSessionId = some sid
            · cases hIp : isIpSuspicious ip with
              | false => simp [isSessionStillValid, hc, hv, he, hd, hs2, hIp]
              | true =>
                cases hT : trustedIncludes a.trustedIps ip with
                | false => simp [isSessionStillValid, hc, hv, he, hd, hs2, hIp, hT]
                | true => simp [isSessionStillValid, hc, hv, he, hd, hs2, hIp, hT]
            · simp [isSessionStillValid, hc, hv, he, hd, hs2]
          · simp [isSessionStillValid, hc, hv, he, hd]
        · simp [isSessionStillValid, hc, hv, he]

/-- Claim C4: invariant I3 across all client-facing operations — provisioning
stores the new secret with `totpEnabled := false`; confirmation succeeds and
flips `totpEnabled` on exactly when the submitted code validates against the
stored secret; a failed validation leaves the document unchanged and reports
`invalidCodeMsg`; and across the whole operation alphabet the only transition
that turns `totpEnabled` on is a `confirm` whose code validated against the
stored secret. -/
theorem stepUp_enable_gate (codeAt : String → Int → Nat) :
    (∀ (s : Option Account) (sec : String) (a' : Account),
       (generateTotpSecret s sec).1 = some a' →
       a'.totpSecret = some sec ∧ a'.totpEnabled = false) ∧
    (∀ (a : Account) (tok t : Nat),
       truthyS a.totpSecret = true →
       (totpValidate (codeAt (a.totpSecret.getD "")) tok t 30 1).isSome = true →
       verifyAndEnableTotp codeAt (some a) tok t =
         (some { a with totpEnabled := true }, okRes totpEnabledMsg)) ∧
    (∀ (a : Account) (tok t : Nat),
       truthyS a.totpSecret = true →
       totpValidate (codeAt (a.totpSecret.getD "")) tok t 30 1 = none →
       verifyAndEnableTotp codeAt (some a) tok t = (some a, failRes invalidCodeMsg)) ∧
    (∀ (s : Option Account) (op : Op) (a' : Account),
       enabledOf s = false →
       (step codeAt s op).1 = some a' →
       a'.totpEnabled = true →
       ∃ tok t, op = Op.confirm tok t ∧
         ∃ a, s = some a ∧ truthyS a.totpSecret = true ∧
           (totpValidate (codeAt (a.totpSecret.getD "")) tok t 30 1).isSome = true) := by
  refine ⟨?_, ?_, ?_, ?_⟩
  · intro s sec a' h
    cases s with
    | none => simp [generateTotpSecret] at h
    | some a =>
      have h2 : { a with totpSecret := some sec, totpEnabled := false } = a' := by
        simpa [generateTotpSecret] using h
      subst h2
      exact ⟨rfl, rfl⟩
  · intro a tok t hsec hval
    rcases Option.isSome_iff_exists.mp hval with ⟨d, hd⟩
    simp [verifyAndEnableTotp, hsec, hd]
  · intro a tok t hsec hnone
    simp [verifyAndEnableTotp, hsec, hnone]
  · intro s op a' h1 h2 h3
    cases op with
    | register o ip u e =>
      exact absurd (registerUser_enabled s o ip u e a' h2 h3) (by simp [h1])
    | login idp ip pw dev sid =>
      exact absurd (handlePasswordSubmit_enabled s idp ip pw dev sid a' h2 h3)
        (by simp [h1])
    | provision sec =>
      cases s with
      | none => simp [step, generateTotpSecret] at h2
      | some a =>
        have h4 : { a with totpSecret := some sec, totpEnabled := false } = a' := by
          simpa [step, generateTotpSecret] using h2
        subst h4
        simp at h3
    | confirm tok t =>
      cases s with
      | none => simp [step, verifyAndEnableTotp] at h2
      | some a =>
        simp only [step, verifyAndEnableTotp] at h2
        split at h2
        · have h4 : a = a' := by simpa using h2
          subst h4
          simp [enabledOf] at h1
          exact absurd h3 (by simp [h1])
        · next hsec =>
          split at h2
          · have h4 : a = a' := by simpa using h2
            subst h4
            simp [enabledOf] at h1
            exact absurd h3 (by simp [h1])
          · next d hd =>
            refine ⟨tok, t, rfl, a, rfl, ?_, ?_⟩
            · simpa using hsec
            · simp [hd]
    | stepUpBind tok t ip dev sid =>
      exact absurd (verifyTotp_enabled codeAt s tok t ip sid dev a' h2 h3)
        (by simp [h1])
    | logout u =>
      exact absurd (logoutUser_enabled u s a' h2 h3) (by simp [h1])
    | checkValid u idp ip dev sid =>
      exact absurd (checkValid_enabled u s idp ip dev sid a' h2 h3) (by simp [h1])

/-- Witness for C4: provisioning stores the secret disabled; a wrong code fails
with `invalidCodeMsg` and leaves the document untouched; a confirm whose code
matches the current step is exactly the transition the gate describes. -/
theorem stepUp_enable_gate_witness :
    ({ acctFresh with totpSecret := some "K", totpEnabled := false }.totpSecret = some "K" ∧
     { acctFresh with totpSecret := some "K", totpEnabled := false }.totpEnabled = false) ∧
    verifyAndEnableTotp wcodeAt (some acctPend) 999999 90 =
      (some acctPend, failRes invalidCodeMsg) ∧
    (∃ tok t, Op.confirm 3 90 = Op.confirm tok t ∧
       ∃ a, (some acctPend : Option Account) = some a ∧ truthyS a.totpSecret = true ∧
         (totpValidate (wcodeAt (a.totpSecret.getD "")) tok t 30 1).isSome = true) :=
  ⟨(stepUp_enable_gate wcodeAt).1 (some acctFresh) "K" _ rfl,
   (stepUp_enable_gate wcodeAt).2.2.1 acctPend 999999 90 (by decide) (by decide),
   (stepUp_enable_gate wcodeAt).2.2.2 (some acctPend) (Op.confirm 3 90)
     { acctPend with totpEnabled := true } (by decide) (by decide) rfl⟩

/-- Claim C5: from an address that is neither statically trusted nor in the
account's trusted set, after the credential and email gates pass: with step-up
enabled the result is `needsTotp` (NeedsStepUp) and the document is returned
completely unchanged; with step-up never provisioned the login is refused
outright with the remediation message, likewise without any mutation.  The
`goodA` hypothesis (enabled implies a stored secret) holds in every reachable
state by `step_good`/`runOps_good` and `goodA_newAccount`. -/
theorem untrusted_login_gates (a : Account) (idp : IdP) (x pw : String)
    (u : IdPrincipal)
    (hEmail : truthyS a.email = true)
    (hSign : idp.signIn (a.email.getD "") pw = some u)
    (hVer : u.emailVerified = true)
    (hSusp : isIpSuspicious (some x) = true)
    (hMem : trustedIncludes a.trustedIps (some x) = false)
    (hGood : goodA a) :
    (a.totpEnabled = true →
      loginUser (some a) idp (some x) pw =
        (some a, ⟨false, needsTotpMsg (some x), none, true, false⟩)) ∧
    (a.totpEnabled = false →
      loginUser (some a) idp (some x) pw =
        (some a, failRes (noTotpRefusalMsg (some x)))) := by
  constructor
  · intro hE
    have hsec : truthyS a.totpSecret = true := hGood hE
    simp [loginUser, hEmail, hSign, hVer, hSusp, hMem, hE, hsec]
  · intro hE
    simp [loginUser, hEmail, hSign, hVer, hSusp, hMem, hE]

/-- Witness for C5: the step-up-enabled account gets `needsTotp`, the
never-provisioned account gets the refusal, both from the unknown address
`8.8.8.8`, both with the document untouched. -/
theorem untrusted_login_gates_witness :
    loginUser (some acctTotp) idpAccept (some "8.8.8.8") "pw" =
      (some acctTotp, ⟨false, needsTotpMsg (some "8.8.8.8"), none, true, false⟩) ∧
    loginUser (some acctFresh) idpAccept (some "8.8.8.8") "pw" =
      (some acctFresh, failRes (noTotpRefusalMsg (some "8.8.8.8"))) :=
  ⟨(untrusted_login_gates acctTotp idpAccept "8.8.8.8" "pw"
      ⟨"alice@example.com", true⟩ (by decide) rfl rfl (by decide) (by decide)
      (fun _ => by decide)).1 rfl,
   (untrusted_login_gates acctFresh idpAccept "8.8.8.8" "pw"
      ⟨"alice@example.com", true⟩ (by decide) rfl rfl (by decide) (by decide)
      (fun h => by simp [acctFresh] at h)).2 rfl⟩

/-- With `window := 1` the validate scan checks exactly the previous, current
and next step. -/
theorem totpValidate_window_one (code : Int → Nat) (token : Nat) (t : Nat) :
    totpValidate code token t 30 1 =
      (if code (totpCounter t 30 - 1) = token then some (-1)
       else if code (totpCounter t 30) = token then some 0
       else if code (totpCounter t 30 + 1) = token then some 1 else none) := by
  have hr : List.range (2 * 1 + 1) = [0, 1, 2] := rfl
  simp only [totpValidate, hr, List.findSome?]
  norm_num [sub_eq_add_neg]
  by_cases h1 : code (totpCounter t 30 + -1) = token <;>
    by_cases h2 : code (totpCounter t 30) = token <;>
    by_cases h3 : code (totpCounter t 30 + 1) = token <;>
    simp [h1, h2, h3]

/-- Claim C7: one-time-code validation accepts a submitted code iff it equals
the code of the current 30-second step or one of the two adjacent steps
(window ±1); in particular the code of time `t` is still accepted at
`t + 15` (half a period) and — provided the codes of the three covered steps
differ from it — rejected at `t + 60` (two periods). -/
theorem totp_window_spec (code : Int → Nat) (token : Nat) (t : Nat) :
    ((totpValidate code token t 30 1).isSome = true ↔
      ∃ d : Int, (d = -1 ∨ d = 0 ∨ d = 1) ∧ code (totpCounter t 30 + d) = token) ∧
    (totpValidate code (currentCode code t 30) (t + 15) 30 1).isSome = true ∧
    ((∀ d : Int, (d = 1 ∨ d = 2 ∨ d = 3) →
        code (totpCounter t 30 + d) ≠ currentCode code t 30) →
      totpValidate code (currentCode code t 30) (t + 60) 30 1 = none) := by
  refine ⟨?_, ?_, ?_⟩
  · rw [totpValidate_window_one]
    constructor
    · intro h
      by_cases h1 : code (totpCounter t 30 - 1) = token
      · refine ⟨-1, Or.inl rfl, ?_⟩
        have e : totpCounter t 30 + (-1) = totpCounter t 30 - 1 := by ring
        rw [e]
        exact h1
      · by_cases h2 : code (totpCounter t 30) = token
        · exact ⟨0, Or.inr (Or.inl rfl), by simpa using h2⟩
        · by_cases h3 : code (totpCounter t 30 + 1) = token
          · exact ⟨1, Or.inr (Or.inr rfl), h3⟩
          · rw [if_neg h1, if_neg h2, if_neg h3] at h
            simp at h
    · rintro ⟨d, hd, hcode⟩
      rcases hd with rfl | rfl | rfl
      · have e : totpCounter t 30 + (-1) = totpCounter t 30 - 1 := by ring
        rw [e] at hcode
        simp [hcode]
      · simp only [add_zero] at hcode
        by_cases h1 : code (totpCounter t 30 - 1) = token <;> simp [h1, hcode]
      · by_cases h1 : code (totpCounter t 30 - 1) = token <;>
          by_cases h2 : code (totpCounter t 30) = token <;> simp [h1, h2, hcode]
  · have hdiv : (t + 15) / 30 = t / 30 ∨ (t + 15) / 30 = t / 30 + 1 := by omega
    rw [totpValidate_window_one]
    rcases hdiv with hq | hq
    · have hc : totpCounter (t + 15) 30 = totpCounter t 30 := by
        simp [totpCounter, hq]
      rw [hc]
      simp only [currentCode]
      by_cases h1 : code (totpCounter t 30 - 1) = code (totpCounter t 30)
      · rw [if_pos h1]
        rfl
      · rw [if_neg h1]
        simp
    · have hc : totpCounter (t + 15) 30 = totpCounter t 30 + 1 := by
        simp [totpCounter, hq]
      rw [hc]
      have e : totpCounter t 30 + 1 - 1 = totpCounter t 30 := by ring
      rw [e]
      simp only [currentCode]
      simp
  · intro hne
    have hdiv : (t + 60) / 30 = t / 30 + 2 := by omega
    rw [totpValidate_window_one]
    have hc : totpCounter (t + 60) 30 = totpCounter t 30 + 2 := by
      simp [totpCounter, hdiv]
    rw [hc]
    have e1 : totpCounter t 30 + 2 - 1 = totpCounter t 30 + 1 := by ring
    have e3 : totpCounter t 30 + 2 + 1 = totpCounter t 30 + 3 := by ring
    rw [e1, e3, if_neg (hne 1 (Or.inl rfl)), if_neg (hne 2 (Or.inr (Or.inl rfl))),
       if_neg (hne 3 (Or.inr (Or.inr rfl)))]

/-- Witness for C7 with the concrete code family `wcode` at `t = 90`
(step counter 3): the code of time 90 is accepted at 105 and rejected at
150. -/
theorem totp_window_spec_witness :
    (totpValidate wcode (currentCode wcode 90 30) (90 + 15) 30 1).isSome = true ∧
    totpValidate wcode (currentCode wcode 90 30) (90 + 60) 30 1 = none :=
  ⟨(totp_window_spec wcode (currentCode wcode 90 30) 90).2.1,
   (totp_window_spec wcode (currentCode wcode 90 30) 90).2.2 (by
      intro d hd
      rcases hd with rfl | rfl | rfl <;> decide)⟩

/-- Claim C10: the TOTP-variant `loginUser` writes nothing to the store for any
input and its result never carries a session id; in the LoginPage flow a result
carrying a session id is exactly the result of the separate `createSession`
call. -/
theorem loginUser_pure (s : Option Account) (idp : IdP) (ip : Option String)
    (pw dev nsid : String) :
    (loginUser s idp ip pw).1 = s ∧
    (loginUser s idp ip pw).2.sessionId = none ∧
    ((handlePasswordSubmit s idp ip pw dev nsid).2.sessionId ≠ none →
       handlePasswordSubmit s idp ip pw dev nsid = createSession s ip nsid dev) := by
  refine ⟨loginUser_fst s idp ip pw, loginUser_sessionId s idp ip pw, ?_⟩
  intro hne
  by_cases hs : (loginUser s idp ip pw).2.success = true
  · simp only [handlePasswordSubmit, hs, if_true, loginUser_fst]
  · exfalso
    apply hne
    simp only [handlePasswordSubmit, hs, if_false]
    exact loginUser_sessionId s idp ip pw

/-- Witness for C10: a trusted-address login succeeds without writing, and the
flow's session comes from `createSession`. -/
theorem loginUser_pure_witness :
    (loginUser (some acctFresh) idpAccept (none : Option String) "pw").1 = some acctFresh ∧
    (loginUser (some acctFresh) idpAccept (none : Option String) "pw").2.sessionId = none ∧
    handlePasswordSubmit (some acctFresh) idpAccept (none : Option String) "pw" "dev-1" "sid-7" =
      createSession (some acctFresh) (none : Option String) "sid-7" "dev-1" :=
  ⟨(loginUser_pure (some acctFresh) idpAccept (none : Option String) "pw" "dev-1" "sid-7").1,
   (loginUser_pure (some acctFresh) idpAccept (none : Option String) "pw" "dev-1" "sid-7").2.1,
   (loginUser_pure (some acctFresh) idpAccept (none : Option String) "pw" "dev-1" "sid-7").2.2
     (by decide)⟩

/-- Claim C1: a login attempt (the client-facing flow) from an address that is
statically suspicious and not in the account's current trusted set yields no
session id, reports failure, and leaves the document unchanged — regardless of
credential correctness; and a step-up bind from such an address whose code does
not validate likewise grants nothing and changes nothing.  Since this holds at
every state (in particular every state `runOps` can reach), the only
client-facing path from such an address to a populated `activeSession` is a
`stepUpBind` whose code validated — the step-up gate of the spec. -/
theorem untrusted_address_never_binds (codeAt : String → Int → Nat)
    (s : Option Account) (idp : IdP) (x pw dev nsid : String)
    (hSusp : isIpSuspicious (some x) = true)
    (hMem : trustedIncludes (trustedOf s) (some x) = false) :
    ((step codeAt s (Op.login idp (some x) pw dev nsid)).1 = s ∧
     (step codeAt s (Op.login idp (some x) pw dev nsid)).2.success = false ∧
     (step codeAt s (Op.login idp (some x) pw dev nsid)).2.sessionId = none) ∧
    (∀ tok t : Nat,
       totpValidate (codeAt ((secretOf s).getD "")) tok t 30 1 = none →
       (step codeAt s (Op.stepUpBind tok t (some x) dev nsid)).1 = s ∧
       (step codeAt s (Op.stepUpBind tok t (some x) dev nsid)).2.sessionId = none) := by
  have hfail := loginUser_untrusted_fails s idp x pw hSusp hMem
  constructor
  · have hflow : handlePasswordSubmit s idp (some x) pw dev nsid =
        loginUser s idp (some x) pw := by
      simp only [handlePasswordSubmit]
      rw [if_neg (by simp [hfail])]
    refine ⟨?_, ?_, ?_⟩
    · show (handlePasswordSubmit s idp (some x) pw dev nsid).1 = s
      rw [hflow]
      exact loginUser_fst s idp (some x) pw
    · show (handlePasswordSubmit s idp (some x) pw dev nsid).2.success = false
      rw [hflow]
      exact hfail
    · show (handlePasswordSubmit s idp (some x) pw dev nsid).2.sessionId = none
      rw [hflow]
      exact loginUser_sessionId s idp (some x) pw
  · intro tok t hval
    cases s with
    | none => exact ⟨rfl, rfl⟩
    | some a =>
      simp only [step, verifyTotpAndCreateSession]
      split
      · exact ⟨rfl, rfl⟩
      · have hval' : totpValidate (codeAt (a.totpSecret.getD "")) tok t 30 1 = none := hval
        rw [hval']
        exact ⟨rfl, rfl⟩

/-- Witness for C1: with the credential-accepting Identity Provider and a
correct password, a login from the unknown address `8.8.8.8` still yields no
session and no state change, and a step-up bind with a wrong code from the same
address grants nothing. -/
theorem untrusted_address_never_binds_witness :
    ((step wcodeAt (some acctTotp) (Op.login idpAccept (some "8.8.8.8") "pw" "dev-1" "sid-3")).1 = some acctTotp ∧
     (step wcodeAt (some acctTotp) (Op.login idpAccept (some "8.8.8.8") "pw" "dev-1" "sid-3")).2.success = false ∧
     (step wcodeAt (some acctTotp) (Op.login idpAccept (some "8.8.8.8") "pw" "dev-1" "sid-3")).2.sessionId = none) ∧
    ((step wcodeAt (some acctTotp) (Op.stepUpBind 999999 90 (some "8.8.8.8") "dev-1" "sid-3")).1 = some acctTotp ∧
     (step wcodeAt (some acctTotp) (Op.stepUpBind 999999 90 (some "8.8.8.8") "dev-1" "sid-3")).2.sessionId = none) :=
  ⟨(untrusted_address_never_binds wcodeAt (some acctTotp) idpAccept "8.8.8.8"
      "pw" "dev-1" "sid-3" (by decide) (by decide)).1,
   (untrusted_address_never_binds wcodeAt (some acctTotp) idpAccept "8.8.8.8"
      "pw" "dev-1" "sid-3" (by decide) (by decide)).2 999999 90 (by decide)⟩

end SingleLogin
